import Mathlib

/-!
Verification development for `otcextensions/sdk/s3/v1/_proxy.py` (the S3 proxy
façade of python-otcextensions).

The proxy methods all have the same shape: build a boto3 client, forward one
backend call, and inspect the response dict.  The backend client (boto3) and
the HTTP transport are external boundaries: each proxy method is embedded as

  * a request-building half — the keyword arguments the method passes to the
    boto3 client call, and
  * a response-handling half — a pure function from the backend's response
    dict to the value the method returns.

Python dicts appearing in responses are embedded as association lists; Python
truthiness and `dict.get` defaulting are made explicit.  Helpers from the
Python runtime that the source leans on (`urllib.parse.urlsplit`, the `%`
string-formatting operator, `os.path.basename`, the `with open(...)` context
manager) are embedded to the extent the source exercises them, with comments
marking the modelled subset.
-/

namespace S3Proxy

/-- A value stored in a backend response dict: the source only ever compares
such values against the integer 200/204 (`== 200` in Python is false for any
non-int value, which the two-constructor embedding preserves). -/
inductive PyVal where
  | int (n : Int)
  | str (s : String)
deriving DecidableEq, Repr

/-- A backend response dict, as the proxy methods inspect it:
`responseMetadata` is the `'ResponseMetadata'` entry if present (itself a
dict, embedded as an association list so that an empty — hence falsy — dict
and a dict lacking `'HTTPStatusCode'` are both representable);
`buckets` is the `'Buckets'` entry of a `list_buckets` response if present
(a list of bucket dicts); `body` collects the remaining top-level entries. -/
structure RawResponse where
  responseMetadata : Option (List (String × PyVal))
  buckets : Option (List (List (String × PyVal)))
  body : List (String × PyVal)
deriving DecidableEq, Repr

/-- The translated container resource.  Its class (`Container` in
`otcextensions/sdk/s3/v1/container.py`) is not among the sources here; only
the attribute the claims mention is carried. -/
structure Container where
  name : String
deriving DecidableEq, Repr

/-- Modelled from the spec: `Container._translate_response` lives in
`otcextensions/sdk/s3/v1/container.py`, which is not among the sources here.
Per the spec, normalization of a successful response of an operation on a
named container yields the translated `Container` carrying that operation's
container name (spec: for `create_container("bucket-a", ...)` the translated
Container name is `"bucket-a"`). -/
def translate_response (container_name : String) (_response : RawResponse) : Container :=
  Container.mk container_name

/-- Modelled from the spec: `Container._translate_container_response` is also
in the missing `container.py`.  Per the spec, the listing translates each
bucket entry into one Container; the name is read from the entry's `'Name'`
field (empty when absent). -/
def translate_container_response (bucket : List (String × PyVal)) : Container :=
  match bucket.lookup "Name" with
  | some (PyVal.str s) => Container.mk s
  | _ => Container.mk ""

/-- Python truthiness of `response.get('ResponseMetadata')`: the entry is
truthy iff it is present and a non-empty dict. -/
def dictTruthy : Option (List (String × PyVal)) → Bool
  | some md => !md.isEmpty
  | none => false

/-- `response.get('ResponseMetadata').get('HTTPStatusCode', None)` — in the
source this chain is only evaluated under the truthiness guard, so the
`none` case below is never reached there; the embedding totalizes it with
the same default `None`. -/
def httpStatusGet (response : RawResponse) : Option PyVal :=
  match response.responseMetadata with
  | some md => md.lookup "HTTPStatusCode"
  | none => none

/-- The value a proxy method returns: either the translated Container
(success) or the backend's raw response dict passed through unchanged. -/
inductive OperationResult where
  | translated (c : Container)
  | raw (r : RawResponse)
deriving DecidableEq, Repr

/-- Response-handling half of `create_container` (_proxy.py lines 70–90): the
backend call `s3_client.create_bucket(...)` is the external boundary and its
response is the parameter.  Source:
`if response.get('ResponseMetadata'):` then
`if ... .get('HTTPStatusCode', None) == 200:` translate, else fall through to
`return response`. -/
def create_container (container_name : String) (response : RawResponse) : OperationResult :=
  if dictTruthy response.responseMetadata then
    if httpStatusGet response = some (PyVal.int 200) then
      OperationResult.translated (translate_response container_name response)
    else OperationResult.raw response
  else OperationResult.raw response

/-- Response-handling half of `get_container` (_proxy.py lines 92–108); same
shape as `create_container`, success status 200. -/
def get_container (container_name : String) (response : RawResponse) : OperationResult :=
  if dictTruthy response.responseMetadata then
    if httpStatusGet response = some (PyVal.int 200) then
      OperationResult.translated (translate_response container_name response)
    else OperationResult.raw response
  else OperationResult.raw response

/-- Response-handling half of `delete_container` (_proxy.py lines 110–122);
the declared success status is 204. -/
def delete_container (container_name : String) (response : RawResponse) : OperationResult :=
  if dictTruthy response.responseMetadata then
    if httpStatusGet response = some (PyVal.int 204) then
      OperationResult.translated (translate_response container_name response)
    else OperationResult.raw response
  else OperationResult.raw response

/-- Response-handling half of `get_container_acl` (_proxy.py lines 124–140);
success status 200. -/
def get_container_acl (container_name : String) (response : RawResponse) : OperationResult :=
  if dictTruthy response.responseMetadata then
    if httpStatusGet response = some (PyVal.int 200) then
      OperationResult.translated (translate_response container_name response)
    else OperationResult.raw response
  else OperationResult.raw response

/-- Response-handling half of `put_container_acl` (_proxy.py lines 142–164);
success status 200. -/
def put_container_acl (container_name : String) (response : RawResponse) : OperationResult :=
  if dictTruthy response.responseMetadata then
    if httpStatusGet response = some (PyVal.int 200) then
      OperationResult.translated (translate_response container_name response)
    else OperationResult.raw response
  else OperationResult.raw response

/-- Response-handling half of `put_container_policy` (_proxy.py lines
166–185); success status 200. -/
def put_container_policy (container_name policy : String) (response : RawResponse) : OperationResult :=
  if dictTruthy response.responseMetadata then
    if httpStatusGet response = some (PyVal.int 200) then
      OperationResult.translated (translate_response container_name response)
    else OperationResult.raw response
  else OperationResult.raw response

/-- Response-handling half of `get_container_policy` (_proxy.py lines
187–203); success status 200. -/
def get_container_policy (container_name : String) (response : RawResponse) : OperationResult :=
  if dictTruthy response.responseMetadata then
    if httpStatusGet response = some (PyVal.int 200) then
      OperationResult.translated (translate_response container_name response)
    else OperationResult.raw response
  else OperationResult.raw response

/-- Response-handling half of `delete_container_policy` (_proxy.py lines
205–221); the declared success status is 204. -/
def delete_container_policy (container_name : String) (response : RawResponse) : OperationResult :=
  if dictTruthy response.responseMetadata then
    if httpStatusGet response = some (PyVal.int 204) then
      OperationResult.translated (translate_response container_name response)
    else OperationResult.raw response
  else OperationResult.raw response

/-- Response-handling half of `delete_object` (_proxy.py lines 342–352): the
source performs no status inspection at all — `return response`
unconditionally. -/
def delete_object (container_name key : String) (response : RawResponse) : OperationResult :=
  OperationResult.raw response

/-- The spec's Response Normalizer, stated from the spec's words for the
refinement claims: success exactly when the response carries a truthy
metadata envelope declaring the operation's expected status; any other
response is exposed raw as a non-success result. -/
def normalize (raw : RawResponse) (expected_status : Int) (container_name : String) : OperationResult :=
  if dictTruthy raw.responseMetadata = true
      ∧ httpStatusGet raw = some (PyVal.int expected_status) then
    OperationResult.translated (translate_response container_name raw)
  else OperationResult.raw raw

/-- The keyword arguments a proxy method forwards to a boto3 bucket call:
the client method name, the `Bucket` parameter, and the `Policy` parameter
where the call has one. -/
structure BackendCall where
  api : String
  bucket : String
  policy : Option String
deriving DecidableEq, Repr

/-- Request-building half of `get_container_acl`:
`s3_client.get_bucket_acl(Bucket=container_name, **kwargs)` — the name is
forwarded with no validation. -/
def get_container_acl_request (container_name : String) : BackendCall :=
  BackendCall.mk "get_bucket_acl" container_name none

/-- Request-building half of `put_container_acl`:
`s3_client.put_bucket_acl(Bucket=container_name, **kwargs)`. -/
def put_container_acl_request (container_name : String) : BackendCall :=
  BackendCall.mk "put_bucket_acl" container_name none

/-- Request-building half of `get_container_policy`:
`s3_client.get_bucket_policy(Bucket=container_name, **kwargs)`. -/
def get_container_policy_request (container_name : String) : BackendCall :=
  BackendCall.mk "get_bucket_policy" container_name none

/-- Request-building half of `put_container_policy`:
`s3_client.put_bucket_policy(Bucket=container_name, Policy=policy, **kwargs)`. -/
def put_container_policy_request (container_name policy : String) : BackendCall :=
  BackendCall.mk "put_bucket_policy" container_name (some policy)

/-- Request-building half of `delete_container_policy`:
`s3_client.delete_bucket_policy(Bucket=container_name, **kwargs)`. -/
def delete_container_policy_request (container_name : String) : BackendCall :=
  BackendCall.mk "delete_bucket_policy" container_name none

/-- Errors of the Python runtime and of the spec's taxonomy that the embedded
code paths can surface. `credentialUnavailable` is the spec's taxonomy entry;
no code path of the source produces it — it is carried so the claim about it
can be stated. -/
inductive PyError where
  | noneNotIterable
  | noneNotUnpackable
  | unboundLocal
  | keyError (k : String)
  | formatError
  | netlocBracketError
  | credentialUnavailable
deriving DecidableEq, Repr

/-- What `self.session._sdk_connection` exposes: whether
`hasattr(conn, 'get_ak_sk')` holds, and the key pair `conn.get_ak_sk(conn)`
returns when it does. -/
structure SdkConnection where
  hasGetAkSk : Bool
  ak : String
  sk : String
deriving DecidableEq, Repr

/-- Python string truthiness: non-empty. -/
def pyStrTruthy (s : String) : Bool := !s.isEmpty

/-- The three ways `_set_ak_sk_keys` can come back to its caller. -/
inductive SetKeysResult where
  | keys (ak sk : String)
  | noneReturned
  | unboundLocal
deriving DecidableEq, Repr

/-- `_set_ak_sk_keys` (_proxy.py lines 44–51).  Source:
`if hasattr(conn, 'get_ak_sk'): (ak, sk) = conn.get_ak_sk(conn)`, then
`if not (ak and sk): log.error(...); return None`, else `return ak, sk`.
Python `not (ak and sk)` is truthy iff either string is empty.  When the
`hasattr` guard fails, `ak` is unbound and the second `if` raises
`UnboundLocalError`. -/
def set_ak_sk_keys (conn : SdkConnection) : SetKeysResult :=
  if conn.hasGetAkSk then
    if !(pyStrTruthy conn.ak && pyStrTruthy conn.sk) then SetKeysResult.noneReturned
    else SetKeysResult.keys conn.ak conn.sk
  else SetKeysResult.unboundLocal

/-- ASCII lowering, as `str.lower()` acts on the ASCII-only scheme characters
`urlsplit` validates before lowering. -/
def pyLower (c : Char) : Char :=
  if 'A' ≤ c && c ≤ 'Z' then Char.ofNat (c.toNat + 32) else c

/-- `url[0].isascii() and url[0].isalpha()` — for ASCII input this is exactly
membership in `[a-zA-Z]`. -/
def pyIsAsciiAlpha (c : Char) : Bool :=
  ('a' ≤ c && c ≤ 'z') || ('A' ≤ c && c ≤ 'Z')

/-- `urllib.parse.scheme_chars`. -/
def scheme_chars : List Char :=
  String.data "abcdefghijklmnopqrstuvwxyzABCDEFGHIJKLMNOPQRSTUVWXYZ0123456789+-."

/-- Boolean membership in a character list (kept as its own primitive so the
proofs need only its two equations). -/
def charIn (c : Char) : List Char → Bool
  | [] => false
  | d :: ds => c = d || charIn c ds

/-- Split at the first occurrence of `c`: `some (before, after)` mirrors
Python's `url[:i], url[i+1:]` for `i = url.find(c)` when found. -/
def splitAtChar (c : Char) : List Char → Option (List Char × List Char)
  | [] => none
  | x :: xs =>
    if x = c then some ([], xs)
    else
      match splitAtChar c xs with
      | some (a, b) => some (x :: a, b)
      | none => none

/-- The scheme validity test of `urlsplit`: `i > 0`, `url[0].isascii() and
url[0].isalpha()`, and every char of `url[:i]` in `scheme_chars`. -/
def validSchemeList (l : List Char) : Bool :=
  !l.isEmpty && pyIsAsciiAlpha (l.headD ' ') && l.all (fun c => charIn c scheme_chars)

/-- `validSchemeList` on a string's characters. -/
def validScheme (s : String) : Bool := validSchemeList s.data

/-- The scheme-splitting step of `urlsplit`: on `i = url.find(':')` with a
valid scheme before it, yield `(url[:i].lower(), url[i+1:])`; otherwise no
scheme is split off. -/
def parseScheme (l : List Char) : List Char × List Char :=
  match splitAtChar ':' l with
  | some (before, after) =>
    if validSchemeList before then (before.map pyLower, after) else ([], l)
  | none => ([], l)

/-- A netloc character: `_splitnetloc` stops at the first of `'/'`, `'?'`,
`'#'`. -/
def goodNetlocChar (c : Char) : Bool :=
  !(c = '/' || c = '?' || c = '#')

/-- `url.split(c, 1)` when `c` occurs, identity with empty second component
otherwise — the shape of the fragment and query splits in `urlsplit`. -/
def splitOptional (c : Char) (l : List Char) : List Char × List Char :=
  match splitAtChar c l with
  | some (a, b) => (a, b)
  | none => (l, [])

/-- The five components `urlsplit` returns. -/
structure SplitResult where
  scheme : String
  netloc : String
  path : String
  query : String
  fragment : String
deriving DecidableEq, Repr

/-- `urllib.parse.urlsplit`, for `allow_fragments=True` string input: scheme
split (validated, lowered), `'//'`-prefixed netloc up to the first `/?#`,
mismatched-bracket check (`ValueError`), then fragment and query splits.
The bracketed-host content validation of newer CPython (reached only when
both brackets are present) is outside the modelled subset. -/
def urlsplit (url : String) : Except PyError SplitResult :=
  let sp := parseScheme url.data
  let np :=
    if (sp.2.take 2) = String.data "//" then
      ((sp.2.drop 2).takeWhile goodNetlocChar, (sp.2.drop 2).dropWhile goodNetlocChar)
    else ([], sp.2)
  if (charIn '[' np.1 && !charIn ']' np.1) || (charIn ']' np.1 && !charIn '[' np.1) then
    Except.error PyError.netlocBracketError
  else
    let fr := splitOptional '#' np.2
    let pq := splitOptional '?' fr.1
    Except.ok (SplitResult.mk (String.mk sp.1) (String.mk np.1)
      (String.mk pq.1) (String.mk pq.2) (String.mk fr.2))

/-- `str({'region_name': region})` — what a bare `%s` conversion renders when
the right operand of `%` is the mapping itself. -/
def pyDictStr (region : String) : String :=
  "\x7b\x27region_name\x27: \x27" ++ region ++ "\x27\x7d"

/-- State of the `%`-format scanner: accumulated output, whether the single
positional argument (the mapping) has been consumed by a bare conversion,
and the position inside a format specification. -/
inductive FmtState where
  | normal (out : List Char) (consumed : Bool)
  | percent (out : List Char) (consumed : Bool)
  | inKey (out : List Char) (consumed : Bool) (key : List Char)
  | afterKey (out : List Char) (consumed : Bool) (key : List Char)
  | failed (e : PyError)
deriving DecidableEq, Repr

/-- One character of Python `fmt % {'region_name': region}`.  Modelled
subset: literal text, `'%%'`, a bare `'%s'` (renders the mapping itself; a
second one raises — not enough arguments), and `'%(key)s'` (mapping lookup,
`KeyError` when the key is absent).  Flag/width/precision fields and the
remaining conversion characters raise in CPython on these operands too and
are mapped to `formatError`. -/
def fmtStep (region : String) (s : FmtState) (c : Char) : FmtState :=
  match s with
  | FmtState.normal out consumed =>
    if c = '%' then FmtState.percent out consumed
    else FmtState.normal (out ++ [c]) consumed
  | FmtState.percent out consumed =>
    if c = '%' then FmtState.normal (out ++ [c]) consumed
    else if c = 's' then
      if consumed then FmtState.failed PyError.formatError
      else FmtState.normal (out ++ (pyDictStr region).data) true
    else if c = '(' then FmtState.inKey out consumed []
    else FmtState.failed PyError.formatError
  | FmtState.inKey out consumed key =>
    if c = ')' then FmtState.afterKey out consumed key
    else FmtState.inKey out consumed (key ++ [c])
  | FmtState.afterKey out consumed key =>
    if c = 's' then
      if key = String.data "region_name" then
        FmtState.normal (out ++ region.data) consumed
      else FmtState.failed (PyError.keyError (String.mk key))
    else FmtState.failed PyError.formatError
  | FmtState.failed e => FmtState.failed e

/-- `fmt % {'region_name': region}`: run the scanner; ending inside a format
specification is CPython's incomplete-format `ValueError`. -/
def pyFormat (fmt region : String) : Except PyError String :=
  match fmt.data.foldl (fmtStep region) (FmtState.normal [] false) with
  | FmtState.normal out _ => Except.ok (String.mk out)
  | FmtState.failed e => Except.error e
  | _ => Except.error PyError.formatError

/-- `get_container_endpoint` (_proxy.py lines 23–30):
`split_url = urlsplit(self.get_endpoint())` then
`f'{split_url.scheme}://{split_url.netloc}' % {'region_name': region}`.
The configured endpoint (`self.get_endpoint()`) is the first parameter. -/
def get_container_endpoint (endpoint region : String) : Except PyError String :=
  match urlsplit endpoint with
  | Except.error e => Except.error e
  | Except.ok split_url =>
    pyFormat (split_url.scheme ++ "://" ++ split_url.netloc) region

/-- The boto3 client construction parameters (`boto3.client(service_name='s3',
endpoint_url=..., aws_access_key_id=..., aws_secret_access_key=...)`). -/
structure Boto3Client where
  endpoint_url : String
  aws_access_key_id : String
  aws_secret_access_key : String
deriving DecidableEq, Repr

/-- `get_boto3_client` (_proxy.py lines 32–42): resolve the endpoint first,
then `ak, sk = self._set_ak_sk_keys()` — tuple-unpacking the helper's result,
so a `None` return raises `TypeError: cannot unpack non-iterable NoneType`
(`noneNotUnpackable`), and the unbound-local error propagates. -/
def get_boto3_client (configured_endpoint region_name : String) (conn : SdkConnection) :
    Except PyError Boto3Client :=
  match get_container_endpoint configured_endpoint region_name with
  | Except.error e => Except.error e
  | Except.ok endpoint =>
    match set_ak_sk_keys conn with
    | SetKeysResult.keys ak sk => Except.ok (Boto3Client.mk endpoint ak sk)
    | SetKeysResult.noneReturned => Except.error PyError.noneNotUnpackable
    | SetKeysResult.unboundLocal => Except.error PyError.unboundLocal

/-- Response-handling half of `containers` (_proxy.py lines 55–68):
`buckets = response.get('Buckets')` then `for bucket in buckets:` — iterating
the generator with the entry absent iterates `None` and raises `TypeError`
(`noneNotIterable`); with the entry present, one translated Container is
yielded per bucket entry. -/
def containers (response : RawResponse) : Except PyError (List Container) :=
  match response.buckets with
  | some bs => Except.ok (bs.map translate_container_response)
  | none => Except.error PyError.noneNotIterable

/-- `os.path.basename` for POSIX paths: everything after the last `'/'`. -/
def basename (p : String) : String :=
  String.mk ((p.data.reverse.takeWhile (fun c => !(c = '/'))).reverse)

/-- The keyword arguments of `s3_client.upload_file(Fileobj=..., Bucket=...,
Key=...)`. -/
structure UploadFileCall where
  fileobj : String
  bucket : String
  key : String
deriving DecidableEq, Repr

/-- `upload_object` (_proxy.py lines 239–258), request-building half (the
`upload_file` call is the boundary and returns `None`):
`if key is None: key = os.path.basename(file_name)`, then the forwarded
call. -/
def upload_object (container_name file_name : String) (key : Option String) : UploadFileCall :=
  match key with
  | none => UploadFileCall.mk file_name container_name (basename file_name)
  | some k => UploadFileCall.mk file_name container_name k

/-- Outcome of the backend transfer `download_fileobj` writing into the open
handle: complete, or an exception after a partial write of `partialBytes`. -/
inductive TransferOutcome where
  | complete
  | failMidWrite (partialBytes : Nat)
deriving DecidableEq, Repr

/-- The failure `download_object` propagates on a mid-write error — the
spec's `TransferError`, carried by the exception the backend raises through
the `with` block. -/
inductive TransferError where
  | midWrite (partialBytes : Nat)
deriving DecidableEq, Repr

/-- State of the destination write target after the call. -/
inductive HandleState where
  | acquired
  | released
deriving DecidableEq, Repr

/-- `s3_client.download_fileobj(container_name, key, f)` boundary: succeeds,
or raises after a partial write. -/
def download_fileobj (container_name : String) (key : Option String)
    (outcome : TransferOutcome) : Except TransferError Unit :=
  match outcome with
  | TransferOutcome.complete => Except.ok ()
  | TransferOutcome.failMidWrite n => Except.error (TransferError.midWrite n)

/-- Python context-manager semantics of `with open(file_name, 'wb') as f:`
(the scoped acquisition in `download_object`): the handle is acquired, the
body runs, and on block exit — normal or exceptional — `f.__exit__` closes
the handle and any body exception is re-raised. -/
def withOpenWrite (body : Except TransferError Unit) :
    HandleState × Except TransferError Unit :=
  match body with
  | Except.ok _ => (HandleState.released, Except.ok ())
  | Except.error e => (HandleState.released, Except.error e)

/-- `download_object` (_proxy.py lines 260–273): the destination is opened in
a `with` block and the transfer runs inside it; the returned pair is the
final handle state and the normal/exceptional result. -/
def download_object (file_name container_name : String) (key : Option String)
    (outcome : TransferOutcome) : HandleState × Except TransferError Unit :=
  withOpenWrite (download_fileobj container_name key outcome)

/-- A backend response with a metadata envelope declaring status 200. -/
def resp200 : RawResponse :=
  RawResponse.mk (some [("HTTPStatusCode", PyVal.int 200)]) none []

/-- A backend response with a metadata envelope declaring status 204. -/
def resp204 : RawResponse :=
  RawResponse.mk (some [("HTTPStatusCode", PyVal.int 204)]) none []

/-- A backend response with no metadata envelope. -/
def respNoMeta : RawResponse := RawResponse.mk none none []

/-- Decidable equality of `Except` results, so concrete endpoint evaluations
can be settled by `decide`. -/
def exceptDecEq {ε α : Type} [DecidableEq ε] [DecidableEq α] : DecidableEq (Except ε α)
  | Except.error e, Except.error f =>
    if h : e = f then isTrue (by rw [h]) else isFalse (fun hc => h (by injection hc))
  | Except.error _, Except.ok _ => isFalse (fun hc => Except.noConfusion hc)
  | Except.ok _, Except.error _ => isFalse (fun hc => Except.noConfusion hc)
  | Except.ok a, Except.ok b =>
    if h : a = b then isTrue (by rw [h]) else isFalse (fun hc => h (by injection hc))

instance {ε α : Type} [DecidableEq ε] [DecidableEq α] : DecidableEq (Except ε α) :=
  exceptDecEq

/-- A netloc character as hypothesized by the amended endpoint claim: not a
netloc delimiter, not a bracket, and not a percent sign. -/
def netlocCharOk (c : Char) : Bool :=
  goodNetlocChar c && !(c = '[') && !(c = ']') && !(c = '%')

/-- The discarded trailing part of an endpoint URL: empty, or starting with
one of the delimiters `'/'`, `'?'`, `'#'` at which the netloc ends. -/
def restOk (rest : String) : Bool :=
  match rest.data with
  | [] => true
  | c :: _ => c = '/' || c = '?' || c = '#'

/-- Is `pat` a prefix of the second list? -/
def startsWithChars : List Char → List Char → Bool
  | [], _ => true
  | _ :: _, [] => false
  | p :: ps, x :: xs => p = x && startsWithChars ps xs

/-- Does `pat` occur as a contiguous substring? -/
def containsChars (pat : List Char) : List Char → Bool
  | [] => startsWithChars pat []
  | x :: rest => startsWithChars pat (x :: rest) || containsChars pat rest

/-- The nested status check every normalizing proxy method inlines equals the
spec's `normalize` with the corresponding expected status. -/
theorem nested_normalize (container_name : String) (code : Int) (resp : RawResponse) :
    (if dictTruthy resp.responseMetadata then
       if httpStatusGet resp = some (PyVal.int code) then
         OperationResult.translated (translate_response container_name resp)
       else OperationResult.raw resp
     else OperationResult.raw resp)
    = normalize resp code container_name := by
  unfold normalize
  by_cases h1 : dictTruthy resp.responseMetadata = true
  · by_cases h2 : httpStatusGet resp = some (PyVal.int code)
    · simp [h1, h2]
    · simp [h1, h2]
  · simp [h1]

/-- C1: every mutating façade operation interprets only its backend-declared
success status as success — `create_container`, `get_container`,
`get_container_acl`, `put_container_acl`, `put_container_policy` and
`get_container_policy` equal the declared-status normalization rule at 200,
`delete_container` and `delete_container_policy` equal it at 204 (so any
response whose status differs, or whose envelope is missing or empty, comes
back as the raw payload, never a translated success), and `delete_object`
returns the raw response for every status, so no status other than its
declared one is ever treated as success. -/
theorem c1_only_declared_status_success
    (container_name policy key : String) (resp : RawResponse) :
    create_container container_name resp = normalize resp 200 container_name
    ∧ get_container container_name resp = normalize resp 200 container_name
    ∧ get_container_acl container_name resp = normalize resp 200 container_name
    ∧ put_container_acl container_name resp = normalize resp 200 container_name
    ∧ put_container_policy container_name policy resp = normalize resp 200 container_name
    ∧ get_container_policy container_name resp = normalize resp 200 container_name
    ∧ delete_container container_name resp = normalize resp 204 container_name
    ∧ delete_container_policy container_name resp = normalize resp 204 container_name
    ∧ delete_object container_name key resp = OperationResult.raw resp := by
  refine ⟨?_, ?_, ?_, ?_, ?_, ?_, ?_, ?_, rfl⟩
  · exact nested_normalize container_name 200 resp
  · exact nested_normalize container_name 200 resp
  · exact nested_normalize container_name 200 resp
  · exact nested_normalize container_name 200 resp
  · exact nested_normalize container_name 200 resp
  · exact nested_normalize container_name 200 resp
  · exact nested_normalize container_name 204 resp
  · exact nested_normalize container_name 204 resp

/-- C2: a backend response lacking the `'ResponseMetadata'` envelope is
normalized by `create_container` and `get_container` to the original raw
response itself — the malformed-response failure carrying the raw payload —
and never to a translated success. -/
theorem c2_missing_envelope_is_failure
    (container_name : String) (bk : Option (List (List (String × PyVal))))
    (body : List (String × PyVal)) :
    create_container container_name (RawResponse.mk none bk body)
        = OperationResult.raw (RawResponse.mk none bk body)
    ∧ get_container container_name (RawResponse.mk none bk body)
        = OperationResult.raw (RawResponse.mk none bk body)
    ∧ ∀ c : Container,
        OperationResult.raw (RawResponse.mk none bk body)
          ≠ OperationResult.translated c := by
  refine ⟨rfl, rfl, fun c hc => ?_⟩
  cases hc

/-- C3: the code's behavior when the credential source yields empty strings
for both keys — `_set_ak_sk_keys` returns `None`, and `get_boto3_client`
then fails by tuple-unpacking `None` (`TypeError`), which is precisely the
downstream NoneType-style failure the claim rules out; no path produces the
spec's `CredentialUnavailable`. -/
theorem c3_empty_keys_nonetype_failure :
    set_ak_sk_keys (SdkConnection.mk true "" "") = SetKeysResult.noneReturned
    ∧ get_boto3_client "https://obs.example.com" "eu-de" (SdkConnection.mk true "" "")
        = Except.error PyError.noneNotUnpackable
    ∧ Except.error PyError.noneNotUnpackable
        ≠ (Except.error PyError.credentialUnavailable : Except PyError Boto3Client) := by
  refine ⟨rfl, rfl, fun hc => ?_⟩
  cases hc

/-- C4: `download_object` acquires its destination write target in a scoped
`with` block, so the handle is released on every exit path — after a
complete transfer and after a mid-write failure alike — and a mid-write
failure makes the call fail with the propagated transfer error. -/
theorem c4_download_closes_handle
    (file_name container_name : String) (key : Option String)
    (outcome : TransferOutcome) (n : Nat) :
    (download_object file_name container_name key outcome).1 = HandleState.released
    ∧ (download_object file_name container_name key (TransferOutcome.failMidWrite n)).2
        = Except.error (TransferError.midWrite n)
    ∧ (download_object file_name container_name key TransferOutcome.complete).2
        = Except.ok () := by
  refine ⟨?_, rfl, rfl⟩
  cases outcome <;> rfl

/-- C5: when the backend answers `delete_container` with status 200 instead
of the declared 204, the call returns the raw backend response — a
non-success value, not a translated Container; the normalization path raises
nothing (it is a total function in the embedding). -/
theorem c5_delete_container_status_200
    (container_name : String) (resp : RawResponse)
    (h : httpStatusGet resp = some (PyVal.int 200)) :
    delete_container container_name resp = OperationResult.raw resp
    ∧ ∀ c : Container,
        delete_container container_name resp ≠ OperationResult.translated c := by
  have h204 : ¬ httpStatusGet resp = some (PyVal.int 204) := by
    rw [h]; decide
  have hres : delete_container container_name resp = OperationResult.raw resp := by
    unfold delete_container
    by_cases h1 : dictTruthy resp.responseMetadata = true
    · simp [h1, h204]
    · simp [h1]
  exact ⟨hres, fun c hc => by rw [hres] at hc; cases hc⟩

/-- C5 witness: `delete_container` at the concrete status-200 response. -/
theorem c5_witness :
    delete_container "bucket-a" resp200 = OperationResult.raw resp200 :=
  (c5_delete_container_status_200 "bucket-a" resp200 (by decide)).1

/-- C6: a `create_container` call whose backend response carries a truthy
metadata envelope with status 200 returns the translated Container —
carrying the operation's container name — rather than the raw response. -/
theorem c6_create_container_success
    (container_name : String) (resp : RawResponse)
    (h1 : dictTruthy resp.responseMetadata = true)
    (h2 : httpStatusGet resp = some (PyVal.int 200)) :
    create_container container_name resp
      = OperationResult.translated (translate_response container_name resp)
    ∧ (translate_response container_name resp).name = container_name := by
  constructor
  · unfold create_container
    simp [h1, h2]
  · rfl

/-- C6 witness: `create_container "bucket-a"` at the concrete status-200
response yields the translated Container named `"bucket-a"`. -/
theorem c6_witness :
    create_container "bucket-a" resp200
      = OperationResult.translated (Container.mk "bucket-a") :=
  (c6_create_container_success "bucket-a" resp200 (by decide) (by decide)).1

/-- C7: when `upload_object` is called without a key, the key forwarded to
the backend `upload_file` call is exactly the base name of the source path —
concretely `"report.csv"` for `"/tmp/data/report.csv"` — and an explicit key
is forwarded unchanged. -/
theorem c7_upload_key_derivation (container_name file_name k : String) :
    (upload_object container_name file_name none).key = basename file_name
    ∧ (upload_object container_name file_name none).bucket = container_name
    ∧ (upload_object container_name file_name none).fileobj = file_name
    ∧ basename "/tmp/data/report.csv" = "report.csv"
    ∧ upload_object container_name file_name (some k)
        = UploadFileCall.mk file_name container_name k := by
  refine ⟨rfl, rfl, rfl, by decide, rfl⟩

/-- C8 counterexample: with the empty container name, every ACL and policy
operation still builds its backend call with `Bucket=""` — the request is
forwarded, no validation failure occurs — and the empty-name call even
normalizes a status-200 backend response into a translated success. -/
theorem c8_counterexample :
    get_container_acl_request "" = BackendCall.mk "get_bucket_acl" "" none
    ∧ put_container_acl_request "" = BackendCall.mk "put_bucket_acl" "" none
    ∧ get_container_policy_request "" = BackendCall.mk "get_bucket_policy" "" none
    ∧ put_container_policy_request "" "p" = BackendCall.mk "put_bucket_policy" "" (some "p")
    ∧ delete_container_policy_request "" = BackendCall.mk "delete_bucket_policy" "" none
    ∧ get_container_acl "" resp200 = OperationResult.translated (Container.mk "") := by
  exact ⟨rfl, rfl, rfl, rfl, rfl, by decide⟩

/-- C8 amended: the ACL and policy operations perform no validation of the
container name — every name, the empty string included, is forwarded
unchanged to the backend as the `Bucket` parameter of the corresponding
client call. -/
theorem c8_amended_no_validation (container_name policy : String) :
    (get_container_acl_request container_name).bucket = container_name
    ∧ (put_container_acl_request container_name).bucket = container_name
    ∧ (get_container_policy_request container_name).bucket = container_name
    ∧ (put_container_policy_request container_name policy).bucket = container_name
    ∧ (put_container_policy_request container_name policy).policy = some policy
    ∧ (delete_container_policy_request container_name).bucket = container_name :=
  ⟨rfl, rfl, rfl, rfl, rfl, rfl⟩

/-- String concatenation concatenates the character lists. -/
theorem string_data_append (a b : String) : (a ++ b).data = a.data ++ b.data := rfl

/-- `charIn` is false when the character is absent. -/
theorem charIn_false {c : Char} :
    ∀ {l : List Char}, (∀ x ∈ l, x ≠ c) → charIn c l = false := by
  intro l
  induction l with
  | nil => intro _; rfl
  | cons d ds ih =>
    intro h
    have hd : ¬ (c = d) := fun hc => h d (List.mem_cons_self d ds) hc.symm
    simp [charIn, hd]
    exact ih (fun x hx => h x (List.mem_cons_of_mem d hx))

/-- `charIn` true gives membership. -/
theorem charIn_mem {c : Char} :
    ∀ {l : List Char}, charIn c l = true → c ∈ l := by
  intro l
  induction l with
  | nil => intro h; cases h
  | cons d ds ih =>
    intro h
    simp [charIn] at h
    rcases h with h | h
    · simp [h]
    · exact List.mem_cons_of_mem d (ih h)

/-- `splitAtChar` splits at the first occurrence. -/
theorem splitAtChar_append {c : Char} :
    ∀ {a : List Char} (b : List Char), (∀ x ∈ a, x ≠ c) →
      splitAtChar c (a ++ c :: b) = some (a, b) := by
  intro a
  induction a with
  | nil => intro b _; simp [splitAtChar]
  | cons d ds ih =>
    intro b h
    have hd : ¬ (d = c) := h d (List.mem_cons_self d ds)
    have hrec := ih b (fun x hx => h x (List.mem_cons_of_mem d hx))
    simp [splitAtChar, hd, hrec]

/-- The scheme-splitting step on a well-formed scheme. -/
theorem parseScheme_eq (sd r : List Char)
    (h1 : ∀ x ∈ sd, x ≠ ':') (h2 : validSchemeList sd = true) :
    parseScheme (sd ++ ':' :: r) = (sd.map pyLower, r) := by
  unfold parseScheme
  rw [splitAtChar_append r h1]
  simp [h2]

/-- `takeWhile`/`dropWhile` on an all-good list followed by a stopping
remainder. -/
theorem takeWhile_append_stop {p : Char → Bool} :
    ∀ {a b : List Char}, (∀ x ∈ a, p x = true)
      → (b = [] ∨ ∃ x t, b = x :: t ∧ p x = false)
      → List.takeWhile p (a ++ b) = a ∧ List.dropWhile p (a ++ b) = b := by
  intro a
  induction a with
  | nil =>
    intro b _ hb
    rcases hb with h | ⟨x, t, rfl, hx⟩
    · subst h; exact ⟨rfl, rfl⟩
    · constructor
      · simp [List.takeWhile_cons, hx]
      · simp [List.dropWhile_cons, hx]
  | cons d ds ih =>
    intro b hd hb
    have hpd : p d = true := hd d (List.mem_cons_self d ds)
    have hrec := ih (fun x hx => hd x (List.mem_cons_of_mem d hx)) hb
    constructor
    · simp [List.takeWhile_cons, hpd, hrec.1]
    · simp [List.dropWhile_cons, hpd, hrec.2]

/-- Scanning percent-free text copies it verbatim. -/
theorem foldl_fmtStep_no_percent (region : String) :
    ∀ (l out : List Char) (b : Bool), (∀ c ∈ l, ¬ (c = '%')) →
      List.foldl (fmtStep region) (FmtState.normal out b) l
        = FmtState.normal (out ++ l) b := by
  intro l
  induction l with
  | nil => intro out b _; simp
  | cons c t ih =>
    intro out b h
    have hc : ¬ (c = '%') := h c (List.mem_cons_self c t)
    have hstep : fmtStep region (FmtState.normal out b) c
        = FmtState.normal (out ++ [c]) b := by
      simp [fmtStep, hc]
    rw [List.foldl_cons, hstep,
      ih (out ++ [c]) b (fun x hx => h x (List.mem_cons_of_mem c hx))]
    simp

/-- Formatting a percent-free string with any mapping is the identity. -/
theorem pyFormat_no_percent (fmt region : String)
    (h : ∀ c ∈ fmt.data, ¬ (c = '%')) :
    pyFormat fmt region = Except.ok fmt := by
  obtain ⟨d⟩ := fmt
  unfold pyFormat
  rw [foldl_fmtStep_no_percent region d [] false h]
  rfl

/-- `urlsplit` on an endpoint assembled from a valid scheme, a
delimiter-free bracket-free netloc, and a discarded remainder yields exactly
that scheme (lowered) and netloc. -/
theorem urlsplit_scheme_netloc (sd nd rd : List Char)
    (h1 : ∀ x ∈ sd, x ≠ ':') (h2 : validSchemeList sd = true)
    (h3 : ∀ c ∈ nd, goodNetlocChar c = true)
    (h4 : ∀ c ∈ nd, c ≠ '[') (h5 : ∀ c ∈ nd, c ≠ ']')
    (h6 : rd = [] ∨ ∃ x t, rd = x :: t ∧ goodNetlocChar x = false) :
    ∃ p q f, urlsplit (String.mk (sd ++ ':' :: '/' :: '/' :: (nd ++ rd)))
      = Except.ok (SplitResult.mk (String.mk (sd.map pyLower)) (String.mk nd) p q f) := by
  have htake := takeWhile_append_stop h3 h6
  have hlb := charIn_false h4
  have hrb := charIn_false h5
  refine ⟨String.mk (splitOptional '?' (splitOptional '#' rd).1).1,
    String.mk (splitOptional '?' (splitOptional '#' rd).1).2,
    String.mk (splitOptional '#' rd).2, ?_⟩
  unfold urlsplit
  rw [show (String.mk (sd ++ ':' :: '/' :: '/' :: (nd ++ rd))).data
      = sd ++ ':' :: ('/' :: '/' :: (nd ++ rd)) from rfl]
  rw [parseScheme_eq sd _ h1 h2]
  simp only [List.take, List.drop, if_true]
  simp only [htake.1, htake.2, hlb, hrb]
  simp

/-- C9 amended: `get_container_endpoint` keeps only the scheme and netloc of
the configured endpoint — any trailing path, query, or fragment is discarded
— and because the joined `scheme://netloc` is then fed to Python
`%`-formatting, the result is independent of the region argument whenever
the scheme and netloc contain no `'%'` character at all (not merely no
`'%(region_name)s'` placeholder): it is then exactly
`lower(scheme)://netloc`. -/
theorem c9_amended_scheme_netloc (s n rest region : String)
    (hs : validScheme s = true)
    (hn : n.data.all netlocCharOk = true)
    (hr : restOk rest = true) :
    get_container_endpoint (s ++ "://" ++ n ++ rest) region
      = Except.ok (String.mk (s.data.map pyLower) ++ "://" ++ n) := by
  obtain ⟨sd⟩ := s
  obtain ⟨nd⟩ := n
  obtain ⟨rd⟩ := rest
  have hnall : ∀ c ∈ nd, netlocCharOk c = true := List.all_eq_true.mp hn
  have hnspec : ∀ c ∈ nd, goodNetlocChar c = true ∧ ¬ c = '[' ∧ ¬ c = ']' ∧ ¬ c = '%' := by
    intro c hc
    have h := hnall c hc
    unfold netlocCharOk at h
    simp at h
    exact ⟨h.1.1.1, h.1.1.2, h.1.2, h.2⟩
  have hsall : ∀ c ∈ sd, charIn c scheme_chars = true := by
    have h := hs
    unfold validScheme validSchemeList at h
    simp at h
    exact fun c hc => h.2 c hc
  have hnocolon : ∀ x ∈ sd, x ≠ ':' := by
    intro x hx
    have hmem := charIn_mem (hsall x hx)
    have hdec : ∀ c ∈ scheme_chars, c ≠ ':' := by decide
    exact hdec x hmem
  have hrd : rd = [] ∨ ∃ x t, rd = x :: t ∧ goodNetlocChar x = false := by
    unfold restOk at hr
    cases hcase : rd with
    | nil => exact Or.inl rfl
    | cons x t =>
      refine Or.inr ⟨x, t, rfl, ?_⟩
      rw [hcase] at hr
      simp at hr
      unfold goodNetlocChar
      rcases hr with (h | h) | h <;> simp [h]
  have hsplit := urlsplit_scheme_netloc sd nd rd hnocolon hs
    (fun c hc => (hnspec c hc).1) (fun c hc => (hnspec c hc).2.1)
    (fun c hc => (hnspec c hc).2.2.1) hrd
  obtain ⟨p, q, f, hurl⟩ := hsplit
  have hassemble : String.mk sd ++ "://" ++ String.mk nd ++ String.mk rd
      = String.mk (sd ++ ':' :: '/' :: '/' :: (nd ++ rd)) := by
    show String.mk (sd ++ [':', '/', '/'] ++ nd ++ rd) = _
    rw [List.append_assoc (sd ++ [':', '/', '/']) nd rd,
      List.append_assoc sd [':', '/', '/'] (nd ++ rd)]
    rfl
  unfold get_container_endpoint
  rw [hassemble, hurl]
  have hformat : pyFormat (String.mk (sd.map pyLower) ++ "://" ++ String.mk nd) region
      = Except.ok (String.mk (sd.map pyLower) ++ "://" ++ String.mk nd) := by
    apply pyFormat_no_percent
    intro c hc
    have hdata : (String.mk (sd.map pyLower) ++ "://" ++ String.mk nd).data
        = (sd.map pyLower ++ [':', '/', '/']) ++ nd := rfl
    rw [hdata] at hc
    rcases List.mem_append.mp hc with h | h
    · rcases List.mem_append.mp h with h | h
      · obtain ⟨x, hx, rfl⟩ := List.mem_map.mp h
        have hdec : ∀ c ∈ scheme_chars, ¬ (pyLower c = '%') := by decide
        exact hdec x (charIn_mem (hsall x hx))
      · fin_cases h <;> decide
    · exact (hnspec _ h).2.2.2
  exact hformat

/-- C9 counterexample: for the configured endpoint `https://host%sx/p` the
netloc `host%sx` contains no `'%(region_name)s'` placeholder, yet the value
`get_container_endpoint` returns depends on the region argument: the bare
`%s` conversion renders the whole `{'region_name': region}` mapping into the
result, so the claim's region-independence fails as stated. -/
theorem c9_counterexample :
    containsChars (String.data "%(region_name)s") (String.data "host%sx") = false
    ∧ (urlsplit "https://host%sx/p").map SplitResult.netloc = Except.ok "host%sx"
    ∧ get_container_endpoint "https://host%sx/p" "eu-de"
        = Except.ok "https://host\x7b\x27region_name\x27: \x27eu-de\x27\x7dx"
    ∧ get_container_endpoint "https://host%sx/p" "eu-nl"
        = Except.ok "https://host\x7b\x27region_name\x27: \x27eu-nl\x27\x7dx"
    ∧ get_container_endpoint "https://host%sx/p" "eu-de"
        ≠ get_container_endpoint "https://host%sx/p" "eu-nl" := by
  have h1 : get_container_endpoint "https://host%sx/p" "eu-de"
      = Except.ok "https://host\x7b\x27region_name\x27: \x27eu-de\x27\x7dx" := rfl
  have h2 : get_container_endpoint "https://host%sx/p" "eu-nl"
      = Except.ok "https://host\x7b\x27region_name\x27: \x27eu-nl\x27\x7dx" := rfl
  refine ⟨rfl, rfl, h1, h2, ?_⟩
  rw [h1, h2]
  intro h
  injection h with h
  exact absurd h (by decide)

/-- C9 witness: a percent-free endpoint with path, query and fragment, all
discarded; the hypotheses of the amended theorem are discharged at this
concrete input. -/
theorem c9_witness :
    get_container_endpoint "https://obs.example.com/v1/path?q=1#frag" "eu-de"
      = Except.ok "https://obs.example.com" := by
  have h := c9_amended_scheme_netloc "https" "obs.example.com" "/v1/path?q=1#frag" "eu-de"
    (by decide) (by decide) (by decide)
  exact h.trans (by rfl)

/-- C10: a container-listing response without a `'Buckets'` entry makes the
iteration fail (iterating `None`) rather than yield an empty sequence, and
with the entry present `containers` yields exactly one translated Container
per bucket entry. -/
theorem c10_containers_requires_buckets
    (md : Option (List (String × PyVal))) (body : List (String × PyVal))
    (bs : List (List (String × PyVal))) :
    containers (RawResponse.mk md none body) = Except.error PyError.noneNotIterable
    ∧ containers (RawResponse.mk md (some bs) body)
        = Except.ok (bs.map translate_container_response)
    ∧ (bs.map translate_container_response).length = bs.length := by
  refine ⟨rfl, rfl, ?_⟩
  simp

end S3Proxy
